import Mathlib

/-!
Verification of the AutoGluon tutorial material on custom metrics
(`make_scorer` / Scorer) and on `MultiModalPredictor` workflows
(fit, save/load, evaluate, optimize_for_inference).

The repository snapshot contains only the tutorial notebooks; the
implementations of `autogluon.core.metrics.make_scorer` and of
`MultiModalPredictor` live outside the snapshot.  The definitions below
are therefore modelled from the specification prose of the tutorials,
which states the arithmetic conventions exactly
(`score = sign * raw_metric_value`, `error = sign * optimum - score`,
the `needs_*` inference rule, the fit-after-optimization warning, and
the save/load round trip).

Score values are modelled as rationals; the inputs `y_true` / `y_pred`
are kept abstract (type parameters), since the scorer treats the raw
metric function as a black box.
-/

/-- Modelled from the spec: an AutoGluon Scorer object, as produced by
`autogluon.core.metrics.make_scorer` (implementation not included in the
snapshot).  It wraps a raw scoring function together with its optimum
value, a greater-is-better sign convention, and the `needs_*` flags
declaring which prediction form the metric consumes. -/
structure Scorer (α β : Type) where
  name : String
  score_func : α → β → ℚ
  optimum : ℚ
  greater_is_better : Bool
  needs_pred : Bool
  needs_proba : Bool
  needs_class : Bool
  needs_threshold : Bool
  needs_quantile : Bool

/-- Modelled from the spec: `sign = 1` if `greater_is_better = True`,
else `sign = -1`. -/
def signOf (greater_is_better : Bool) : ℚ :=
  if greater_is_better then 1 else -1

/-- Modelled from the spec: resolution of the `needs_pred` argument of
`make_scorer`.  `none` stands for the default `"auto"`, in which case
`needs_pred` is inferred to be true exactly when all the other four
`needs_*` arguments are false (the metric is then treated as a
regression metric). -/
def resolve_needs_pred (needs_pred : Option Bool)
    (needs_proba needs_class needs_threshold needs_quantile : Bool) : Bool :=
  needs_pred.getD (!(needs_proba || needs_class || needs_threshold || needs_quantile))

/-- Number of `needs_*` flags that are set. -/
def needs_sum (needs_pred needs_proba needs_class needs_threshold needs_quantile : Bool) : Nat :=
  needs_pred.toNat + needs_proba.toNat + needs_class.toNat +
    needs_threshold.toNat + needs_quantile.toNat

/-- Modelled from the spec: `autogluon.core.metrics.make_scorer`
(implementation not in the snapshot).  Builds a Scorer from a name, a
raw scoring function, its optimum value, the greater-is-better flag and
the five `needs_*` arguments; `needs_pred = none` stands for the
default `"auto"`.  The tutorial states that of the `needs_*` flags only
one can be set to true, so construction fails (returns `none`) unless
exactly one of the five resolved flags holds. -/
def make_scorer (name : String) (score_func : α → β → ℚ) (optimum : ℚ)
    (greater_is_better : Bool) (needs_pred : Option Bool)
    (needs_proba needs_class needs_threshold needs_quantile : Bool) :
    Option (Scorer α β) :=
  if needs_sum (resolve_needs_pred needs_pred needs_proba needs_class needs_threshold needs_quantile)
      needs_proba needs_class needs_threshold needs_quantile = 1 then
    some ⟨name, score_func, optimum, greater_is_better,
      resolve_needs_pred needs_pred needs_proba needs_class needs_threshold needs_quantile,
      needs_proba, needs_class, needs_threshold, needs_quantile⟩
  else
    none

/-- Modelled from the spec: calling the Scorer object directly
("the AutoGluon Scorer can be called in the same fashion as the
original metric to compute `score`").  Scorers always report scores in
greater-is-better form: `score = sign * raw_metric_value`. -/
def Scorer.call (s : Scorer α β) (y_true : α) (y_pred : β) : ℚ :=
  signOf s.greater_is_better * s.score_func y_true y_pred

/-- Modelled from the spec: `.score` is an alias to the callable;
`score = sign * raw_metric_value`. -/
def Scorer.score (s : Scorer α β) (y_true : α) (y_pred : β) : ℚ :=
  signOf s.greater_is_better * s.score_func y_true y_pred

/-- Modelled from the spec: conversion helper,
`error = sign * optimum - score`. -/
def Scorer.convert_score_to_error (s : Scorer α β) (score : ℚ) : ℚ :=
  signOf s.greater_is_better * s.optimum - score

/-- Modelled from the spec: inverse conversion helper,
`score = sign * optimum - error`. -/
def Scorer.convert_error_to_score (s : Scorer α β) (err : ℚ) : ℚ :=
  signOf s.greater_is_better * s.optimum - err

/-- Modelled from the spec: `score_orig = sign * score`, converting a
reported score back to the value the raw `score_func` would return. -/
def Scorer.convert_score_to_original (s : Scorer α β) (score : ℚ) : ℚ :=
  signOf s.greater_is_better * score

/-- Modelled from the spec: `.error`, also known as regret, defined as
`error = sign * optimum - score`. -/
def Scorer.error (s : Scorer α β) (y_true : α) (y_pred : β) : ℚ :=
  s.convert_score_to_error (s.score y_true y_pred)

/-- A concrete scorer used to witness the theorems below: the accuracy
scorer of the tutorial, wrapping a toy raw metric on `Unit` inputs. -/
def accScorer : Scorer Unit Unit :=
  ⟨"accuracy", fun _ _ => 1, 1, true, false, false, true, false, false⟩

/-- Extraction lemma: a scorer produced by `make_scorer` carries
exactly the fields it was given, with `needs_pred` resolved. -/
theorem make_scorer_eq_some {α β : Type} {name : String} {f : α → β → ℚ} {opt : ℚ}
    {gib : Bool} {np : Option Bool} {npr ncl nth nqu : Bool} {sc : Scorer α β}
    (h : make_scorer name f opt gib np npr ncl nth nqu = some sc) :
    sc = ⟨name, f, opt, gib, resolve_needs_pred np npr ncl nth nqu, npr, ncl, nth, nqu⟩ ∧
    needs_sum (resolve_needs_pred np npr ncl nth nqu) npr ncl nth nqu = 1 := by
  unfold make_scorer at h
  by_cases hc : needs_sum (resolve_needs_pred np npr ncl nth nqu) npr ncl nth nqu = 1
  · rw [if_pos hc] at h
    exact ⟨(Option.some_injective _ h).symm, hc⟩
  · rw [if_neg hc] at h
    exact Option.noConfusion h

/-- A concrete error-metric scorer used to witness the theorems below:
the mean-squared-error scorer of the tutorial (an error metric, so
`greater_is_better = false` and `optimum = 0`), wrapping a toy raw
metric on `Unit` inputs. -/
def mseScorer : Scorer Unit Unit :=
  ⟨"mean_squared_error", fun _ _ => 2, 0, false, true, false, false, false, false⟩

/-- C1: for every scorer produced by `make_scorer` and every input
pair, the scorer's error equals `sign * optimum - score`, where
`sign = 1` if `greater_is_better` is true and `sign = -1` otherwise,
and `score` is the value the scorer returns for that input. -/
theorem scorer_error_eq_sign_optimum_sub_score {α β : Type} {name : String}
    {f : α → β → ℚ} {opt : ℚ} {gib : Bool} {np : Option Bool}
    {npr ncl nth nqu : Bool} {sc : Scorer α β}
    (h : make_scorer name f opt gib np npr ncl nth nqu = some sc)
    (y_true : α) (y_pred : β) :
    sc.error y_true y_pred =
      signOf sc.greater_is_better * sc.optimum - sc.score y_true y_pred := by
  obtain ⟨rfl, -⟩ := make_scorer_eq_some h
  rfl

/-- Witness for C1: the accuracy scorer at a concrete input. -/
theorem scorer_error_eq_sign_optimum_sub_score_witness :
    make_scorer "accuracy" (fun (_ _ : Unit) => (1 : ℚ)) 1 true none false true false false
      = some accScorer ∧
    accScorer.error () () =
      signOf accScorer.greater_is_better * accScorer.optimum - accScorer.score () () :=
  ⟨rfl, @scorer_error_eq_sign_optimum_sub_score Unit Unit "accuracy"
    (fun _ _ => 1) 1 true none false true false false accScorer rfl () ()⟩

/-- C2: for every scorer produced by `make_scorer` and every input
pair, the reported score equals `sign * raw_metric_value`; in
particular a scorer wrapping an error metric (`greater_is_better =
false` with non-negative raw values) returns a non-positive score. -/
theorem scorer_score_eq_sign_mul_raw {α β : Type} {name : String}
    {f : α → β → ℚ} {opt : ℚ} {gib : Bool} {np : Option Bool}
    {npr ncl nth nqu : Bool} {sc : Scorer α β}
    (h : make_scorer name f opt gib np npr ncl nth nqu = some sc)
    (y_true : α) (y_pred : β) :
    sc.score y_true y_pred = signOf gib * f y_true y_pred ∧
    (gib = false → 0 ≤ f y_true y_pred → sc.score y_true y_pred ≤ 0) := by
  obtain ⟨rfl, -⟩ := make_scorer_eq_some h
  refine ⟨rfl, ?_⟩
  intro hgib hle
  subst hgib
  simp only [Scorer.score, signOf, Bool.false_eq_true, if_false]
  linarith

/-- Witness for C2: the mean-squared-error scorer at a concrete input
with raw metric value 2 reports score `-2 ≤ 0`. -/
theorem scorer_score_eq_sign_mul_raw_witness :
    mseScorer.score () () = signOf false * 2 ∧ mseScorer.score () () ≤ 0 := by
  have h := @scorer_score_eq_sign_mul_raw Unit Unit "mean_squared_error"
    (fun _ _ => 2) 0 false none false false false false mseScorer rfl () ()
  exact ⟨h.1, h.2 rfl (by norm_num)⟩

/-- The scorer of the tutorial's advanced note: a hypothetical metric
with `greater_is_better = false` and `optimum = -2`, whose raw metric
value is `-0.5` on every input. -/
def advScorer : Scorer Unit Unit :=
  ⟨"custom", fun _ _ => -(1/2), -2, false, true, false, false, false, false⟩

/-- C3: for the scorer created with `greater_is_better = false` and
`optimum = -2`, if the raw metric value is `-0.5` then the scorer
returns `score = 0.5` and `error = 1.5`
(`sign (-1) * optimum (-2) - score (0.5) = 1.5`). -/
theorem advanced_note_example :
    make_scorer "custom" (fun (_ _ : Unit) => -(1/2 : ℚ)) (-2) false none false false false false
      = some advScorer ∧
    advScorer.score () () = 1/2 ∧ advScorer.error () () = 3/2 := by
  refine ⟨rfl, ?_, ?_⟩ <;>
    norm_num [advScorer, Scorer.score, Scorer.error, Scorer.convert_score_to_error, signOf]

/-- C4: for every scorer, the score/error conversion helpers are
mutual inverses: converting a score to an error and back yields the
score, and converting an error to a score and back yields the error. -/
theorem convert_helpers_mutual_inverses {α β : Type} (s : Scorer α β) (x e : ℚ) :
    s.convert_error_to_score (s.convert_score_to_error x) = x ∧
    s.convert_score_to_error (s.convert_error_to_score e) = e := by
  constructor <;>
    simp [Scorer.convert_score_to_error, Scorer.convert_error_to_score]

/-- C5: calling the scorer object directly returns the same value as
calling its `.score` method (`.score` is an alias of the callable). -/
theorem scorer_call_eq_score {α β : Type} (s : Scorer α β) (y_true : α) (y_pred : β) :
    s.call y_true y_pred = s.score y_true y_pred :=
  rfl

/-- C8: `make_scorer` maintains the invariant that at most one of the
flags `needs_pred`, `needs_proba`, `needs_class`, `needs_threshold`,
`needs_quantile` is true on any scorer it produces, and if the latter
four are all unspecified/false and `needs_pred` is left to its `"auto"`
default then `needs_pred` is inferred to be true. -/
theorem make_scorer_needs_invariant {α β : Type} {name : String}
    {f : α → β → ℚ} {opt : ℚ} {gib : Bool} {np : Option Bool}
    {npr ncl nth nqu : Bool} {sc : Scorer α β}
    (h : make_scorer name f opt gib np npr ncl nth nqu = some sc) :
    needs_sum sc.needs_pred sc.needs_proba sc.needs_class sc.needs_threshold sc.needs_quantile ≤ 1 ∧
    (np = none → npr = false → ncl = false → nth = false → nqu = false →
      sc.needs_pred = true) := by
  obtain ⟨rfl, hsum⟩ := make_scorer_eq_some h
  refine ⟨hsum.le, ?_⟩
  intro h1 h2 h3 h4 h5
  subst h1; subst h2; subst h3; subst h4; subst h5
  rfl

/-- Witness for C8: the mean-squared-error scorer, built with all
`needs_*` arguments unspecified, has `needs_pred = true` and at most
one flag set. -/
theorem make_scorer_needs_invariant_witness :
    needs_sum mseScorer.needs_pred mseScorer.needs_proba mseScorer.needs_class
      mseScorer.needs_threshold mseScorer.needs_quantile ≤ 1 ∧
    mseScorer.needs_pred = true := by
  have h := @make_scorer_needs_invariant Unit Unit "mean_squared_error"
    (fun _ _ => 2) 0 false none false false false false mseScorer rfl
  exact ⟨h.1, h.2 rfl rfl rfl rfl rfl⟩

/-- C9: for every scorer produced by `make_scorer` and every input
pair, the scorer's error is zero if and only if the raw metric value
equals the declared optimum. -/
theorem scorer_error_zero_iff_optimal {α β : Type} {name : String}
    {f : α → β → ℚ} {opt : ℚ} {gib : Bool} {np : Option Bool}
    {npr ncl nth nqu : Bool} {sc : Scorer α β}
    (h : make_scorer name f opt gib np npr ncl nth nqu = some sc)
    (y_true : α) (y_pred : β) :
    sc.error y_true y_pred = 0 ↔ sc.score_func y_true y_pred = sc.optimum := by
  obtain ⟨rfl, -⟩ := make_scorer_eq_some h
  cases gib <;>
    simp only [Scorer.error, Scorer.convert_score_to_error, Scorer.score, signOf,
      Bool.false_eq_true, if_false, if_true] <;>
    constructor <;> intro hx <;> linarith

/-- Witness for C9: the accuracy scorer at a concrete input where the
raw metric value equals the optimum. -/
theorem scorer_error_zero_iff_optimal_witness :
    accScorer.error () () = 0 ↔ accScorer.score_func () () = accScorer.optimum :=
  @scorer_error_zero_iff_optimal Unit Unit "accuracy"
    (fun _ _ => 1) 1 true none false true false false accScorer rfl () ()

/-!
Model of the predictor workflows of the MultiModal tutorials.  The
`MultiModalPredictor` implementation is not part of the snapshot; the
definitions below are modelled from the tutorial prose: saving and
loading predictors, evaluation, the inference-optimization switch, and
the behaviour of `fit` with custom metrics under Ray parallelization.
-/

/-- Modelled from the spec: a custom metric passed to a predictor.
The only property the tutorial's warning depends on is whether the
metric is serializable (pickleable). -/
structure CustomMetric where
  serializable : Bool

/-- Outcome of a `TabularPredictor.fit` call, as far as the tutorial's
serializability warning describes it. -/
inductive FitOutcome where
  | fitted
  | picklingError
deriving DecidableEq

/-- Modelled from the spec: `fit` on a predictor carrying a custom
metric.  "If a custom metric is not pickleable, AutoGluon will crash
during fit when trying to parallelize model training with Ray", with
errors similar to `_pickle.PicklingError`; otherwise fit proceeds. -/
def TabularPredictor_fit (parallelize_with_ray : Bool) (eval_metric : CustomMetric) :
    FitOutcome :=
  if parallelize_with_ray && !eval_metric.serializable then
    FitOutcome.picklingError
  else
    FitOutcome.fitted

/-- Modelled from the spec: a `MultiModalPredictor`, abstracting the
trained model state `μ` together with the inference-optimization flag
set by `optimize_for_inference()` and the number of GPUs to use. -/
structure MultiModalPredictor (μ : Type) where
  model : μ
  optimized_for_inference : Bool
  num_gpus : Nat

/-- Modelled from the spec: `optimize_for_inference()` replaces the
internal torch-based module by an onnxruntime-based module and
"would modify internal model definition for inference only". -/
def optimize_for_inference (p : MultiModalPredictor μ) : MultiModalPredictor μ :=
  ⟨p.model, true, p.num_gpus⟩

/-- Modelled from the spec: `MultiModalPredictor.fit`.  "Calling
`predictor.fit()` after this [optimize_for_inference] would result in
an error"; otherwise fit trains a model from the data. -/
def MultiModalPredictor_fit (trainFn : δ → μ) (p : MultiModalPredictor μ) (data : δ) :
    Except String (MultiModalPredictor μ) :=
  if p.optimized_for_inference then
    Except.error "Calling fit after optimize_for_inference results in an error"
  else
    Except.ok ⟨trainFn data, false, p.num_gpus⟩

/-- Modelled from the spec: saving a predictor stores its model
artifact at its path (the store maps paths to saved artifacts). -/
def MultiModalPredictor_save (store : String → Option μ) (path : String)
    (p : MultiModalPredictor μ) : String → Option μ :=
  fun q => if q = path then some p.model else store q

/-- Modelled from the spec: `MultiModalPredictor.load(path)` loads a
new predictor from the artifact saved at the path; the loaded
predictor is not inference-optimized (reloading "in order to refit the
model" is the recommended way), and its device configuration is fresh
(it can be reset with `set_num_gpus`). -/
def MultiModalPredictor_load (store : String → Option μ) (path : String)
    (default_gpus : Nat) : Option (MultiModalPredictor μ) :=
  (store path).map (fun m => ⟨m, false, default_gpus⟩)

/-- Modelled from the spec: `set_num_gpus` resets the number of GPUs
used by the predictor. -/
def set_num_gpus (p : MultiModalPredictor μ) (n : Nat) : MultiModalPredictor μ :=
  ⟨p.model, p.optimized_for_inference, n⟩

/-- Modelled from the spec: `evaluate(data)` scores the predictor's
model on the given data; the result is a function of the model
artifact and the data. -/
def MultiModalPredictor_evaluate (evalFn : μ → δ → ℚ) (p : MultiModalPredictor μ)
    (data : δ) : ℚ :=
  evalFn p.model data

/-- Helper: whether an `Except` computation failed. -/
def exceptFailed : Except String (MultiModalPredictor μ) → Bool
  | Except.error _ => true
  | Except.ok _ => false

/-- C6: after `optimize_for_inference()` every call to `fit` results
in an error, while a predictor freshly loaded with
`MultiModalPredictor.load` fits successfully again. -/
theorem fit_after_optimize_errors {μ δ : Type} (trainFn : δ → μ)
    (p : MultiModalPredictor μ) (d : δ) (store : String → Option μ)
    (path : String) (g : Nat) (q : MultiModalPredictor μ)
    (hq : MultiModalPredictor_load store path g = some q) :
    exceptFailed (MultiModalPredictor_fit trainFn (optimize_for_inference p) d) = true ∧
    exceptFailed (MultiModalPredictor_fit trainFn q d) = false := by
  constructor
  · rfl
  · unfold MultiModalPredictor_load at hq
    cases hm : store path with
    | none => rw [hm] at hq; exact Option.noConfusion hq
    | some m =>
      rw [hm] at hq
      have hq2 : (⟨m, false, g⟩ : MultiModalPredictor μ) = q := Option.some.inj hq
      subst hq2
      rfl

/-- Witness for C6: a concrete predictor over rational model state. -/
theorem fit_after_optimize_errors_witness :
    exceptFailed (MultiModalPredictor_fit (fun (_ : Unit) => (0 : ℚ))
      (optimize_for_inference ⟨3, false, 2⟩) ()) = true ∧
    exceptFailed (MultiModalPredictor_fit (fun (_ : Unit) => (0 : ℚ))
      (⟨3, false, 1⟩ : MultiModalPredictor ℚ) ()) = false :=
  @fit_after_optimize_errors ℚ Unit (fun _ => 0) ⟨3, false, 2⟩ ()
    (fun _ => some 3) "model" 1 ⟨3, false, 1⟩ rfl

/-- C7: a non-serializable custom metric makes `fit` crash with a
pickling error when model training is parallelized with Ray; with a
serializable metric, fit does not fail for this reason. -/
theorem fit_pickling {par : Bool} (m : CustomMetric) :
    (par = true → m.serializable = false →
      TabularPredictor_fit par m = FitOutcome.picklingError) ∧
    (m.serializable = true → TabularPredictor_fit par m = FitOutcome.fitted) := by
  constructor
  · intro hp hs
    subst hp
    unfold TabularPredictor_fit
    rw [hs]
    rfl
  · intro hs
    unfold TabularPredictor_fit
    rw [hs]
    cases par <;> rfl

/-- Witness for C7: a non-serializable metric under Ray
parallelization crashes with a pickling error; a serializable one
fits. -/
theorem fit_pickling_witness :
    TabularPredictor_fit true ⟨false⟩ = FitOutcome.picklingError ∧
    TabularPredictor_fit true ⟨true⟩ = FitOutcome.fitted :=
  ⟨(@fit_pickling true ⟨false⟩).1 rfl rfl, (@fit_pickling true ⟨true⟩).2 rfl⟩

/-- C10: loading a saved predictor (and resetting its GPU count, as
the tutorial does) yields a predictor whose `evaluate` on the same
test data returns exactly the same result as the original. -/
theorem save_load_evaluate_roundtrip {μ δ : Type} (evalFn : μ → δ → ℚ)
    (store : String → Option μ) (path : String) (p : MultiModalPredictor μ)
    (g : Nat) (d : δ) (q : MultiModalPredictor μ)
    (hq : MultiModalPredictor_load (MultiModalPredictor_save store path p) path g = some q) :
    MultiModalPredictor_evaluate evalFn (set_num_gpus q 1) d =
      MultiModalPredictor_evaluate evalFn p d := by
  have hs : MultiModalPredictor_save store path p path = some p.model := by
    unfold MultiModalPredictor_save
    rw [if_pos rfl]
  unfold MultiModalPredictor_load at hq
  rw [hs] at hq
  have hq2 : (⟨p.model, false, g⟩ : MultiModalPredictor μ) = q := Option.some.inj hq
  subst hq2
  rfl

/-- Witness for C10: a concrete save/load round trip over rational
model state. -/
theorem save_load_evaluate_roundtrip_witness :
    MultiModalPredictor_evaluate (fun m (_ : Unit) => m)
      (set_num_gpus (⟨3, false, 4⟩ : MultiModalPredictor ℚ) 1) () =
    MultiModalPredictor_evaluate (fun m (_ : Unit) => m)
      (⟨3, false, 2⟩ : MultiModalPredictor ℚ) () :=
  @save_load_evaluate_roundtrip ℚ Unit (fun m _ => m) (fun _ => none) "model"
    ⟨3, false, 2⟩ 4 () ⟨3, false, 4⟩ rfl
